import Mathlib

/-!
Shallow embedding of the inventory-management server (src/server.js) of the
GESTION-MATERIEL repository: the Mongoose data model (Shelf with embedded
Positions, Material, Inspection) and the route handlers for shelves,
materials, inspections and statistics, translated into pure Lean functions
over an explicit database state.  Mongo ObjectIds become natural numbers,
dates become integers, and each route handler becomes a function from the
database state (plus the already-parsed request fields) to an
`Except ApiError` result, mirroring the try/catch + res.status structure of
the JavaScript.
-/

namespace GestionMateriel

/-- Categorical health state of a material: the three string values
`'good' | 'warning' | 'bad'` used by server.js. -/
inductive MState : Type
  | good
  | warning
  | bad
deriving DecidableEq, Repr

/-- The condition-to-state classification used verbatim in
POST /api/materials (server.js lines 194-200) and PUT /api/materials/:id
(lines 276-282): `condition >= 80` is good, else `condition >= 40` is
warning, else bad. -/
def classify (c : Int) : MState :=
  if c ≥ 80 then MState.good
  else if c ≥ 40 then MState.warning
  else MState.bad

/-- One embedded position subdocument of ShelfSchema (server.js lines 50-56).
`materialId` is the optional reference to the occupying Material. -/
structure Position : Type where
  positionId : String
  level : String
  positionNumber : Nat
  occupied : Bool
  materialId : Option Nat
deriving DecidableEq, Repr

/-- A Shelf document (ShelfSchema, server.js lines 45-59); `id` stands for
the Mongo `_id`. -/
structure Shelf : Type where
  id : Nat
  name : String
  row : String
  number : Int
  color : String
  positions : List Position
deriving DecidableEq, Repr

/-- A Material document (MaterialSchema, server.js lines 61-78), restricted
to the fields the core logic reads or writes; `id` stands for `_id`,
`shelfId` for the owning Shelf reference, `position` for the occupied
position's identifier string. -/
structure Material : Type where
  id : Nat
  name : String
  category : String
  entryDate : Int
  condition : Int
  state : MState
  shelf : String
  shelfId : Option Nat
  position : String
  lastInspection : Option Int
deriving DecidableEq, Repr

/-- An Inspection document (InspectionSchema, server.js lines 80-90):
`materials` is the list of referenced Material ids. -/
structure Inspection : Type where
  id : Nat
  date : Int
  materials : List Nat
  inspector : String
deriving DecidableEq, Repr

/-- The persisted state: the Shelves, Materials and Inspections collections,
plus a counter supplying fresh ObjectIds. -/
structure DB : Type where
  shelves : List Shelf
  materials : List Material
  inspections : List Inspection
  nextId : Nat
deriving DecidableEq, Repr

/-- The empty database. -/
def emptyDB : DB := { shelves := [], materials := [], inspections := [], nextId := 0 }

/-- The error outcomes the route handlers can report.  `DuplicateShelf` is
the 400 'Cette étagère existe déjà'; `ValidationError` a Mongoose
schema-validation failure surfaced as 400; `NotFound` a 404;
`TypeErrorNull` the caught TypeError from dereferencing a null document
(surfaced as 400); `PositionNotFound` exists only in the specification's
vocabulary — no handler in server.js ever produces it. -/
inductive ApiError : Type
  | DuplicateShelf
  | ValidationError
  | NotFound
  | TypeErrorNull
  | PositionNotFound
deriving DecidableEq, Repr

end GestionMateriel

namespace GestionMateriel

/-- The three level codes iterated over in POST /api/shelves
(server.js line 138): `['H', 'M', 'B']`. -/
def levelCodes : List String := ["H", "M", "B"]

/-- The level label derived from a level code (server.js line 144):
H ↦ Haut, M ↦ Milieu, otherwise Bas. -/
def levelLabel (code : String) : String :=
  if code = "H" then "Haut" else if code = "M" then "Milieu" else "Bas"

/-- The position grid built by POST /api/shelves (server.js lines 137-149):
for each level code and each index 1..3, a position with identifier
`{row}{number}-{level}{i}`, the derived level label, that index, and
`occupied: false` (no material reference). -/
def genPositions (row : String) (number : Int) : List Position :=
  levelCodes.flatMap (fun level =>
    (List.range 3).map (fun i =>
      { positionId := row ++ toString number ++ "-" ++ level ++ toString (i + 1)
        level := levelLabel level
        positionNumber := i + 1
        occupied := false
        materialId := none }))

/-- POST /api/shelves (server.js lines 126-164): reject a duplicate
(row, number) pair, otherwise persist a new shelf carrying the generated
9-position grid. -/
def createShelf (db : DB) (name row : String) (number : Int) (color : String) :
    Except ApiError (DB × Shelf) :=
  if db.shelves.any (fun s => s.row = row && s.number = number) then
    Except.error ApiError.DuplicateShelf
  else
    let shelf : Shelf :=
      { id := db.nextId, name := name, row := row, number := number,
        color := color, positions := genPositions row number }
    Except.ok ({ db with shelves := db.shelves ++ [shelf], nextId := db.nextId + 1 }, shelf)

/-- The effect of the filtered positional update
`$set { "positions.$[pos].occupied": occ, "positions.$[pos].materialId": mid }`
with `arrayFilters: [{ "pos.positionId": posId }]` on one shelf's position
array (server.js lines 207-211 and 303-307): every position whose
`positionId` matches is rewritten; when none matches, the array is returned
unchanged and no error is raised. -/
def setPositions (ps : List Position) (posId : String) (occ : Bool) (mid : Option Nat) :
    List Position :=
  ps.map (fun p =>
    if p.positionId = posId then { p with occupied := occ, materialId := mid } else p)

/-- `Shelf.findByIdAndUpdate(shelfId, …)` applying `setPositions` to the
shelf with the matching id; a missing shelf id is a silent no-op (Mongoose
returns null without throwing). -/
def setOccupancy (db : DB) (shelfId : Nat) (posId : String) (occ : Bool)
    (mid : Option Nat) : DB :=
  { db with shelves := db.shelves.map (fun s =>
      if s.id = shelfId then { s with positions := setPositions s.positions posId occ mid }
      else s) }

/-- The request fields of POST /api/materials after the shell has parsed
them: the MaterialSchema's required fields plus the optional shelf
reference. -/
structure MaterialInput : Type where
  name : String
  category : String
  entryDate : Int
  condition : Int
  shelf : String
  shelfId : Option Nat
  position : String
deriving DecidableEq, Repr

/-- MaterialSchema's validators on `condition` (server.js line 66):
`min: 0, max: 100`, enforced by Mongoose when `material.save()` runs. -/
def conditionValid (c : Int) : Bool := 0 ≤ c && c ≤ 100

/-- POST /api/materials (server.js lines 185-218): derive `state` from the
condition via the classifier thresholds, save the material (Mongoose
validation rejects a condition outside [0,100] with a ValidationError
caught as a 400), then, when a `shelfId` is present, flip the matching
position(s) of that shelf to occupied with the new material's id — an
unconditional overwrite, with no check that the position exists or was
free. -/
def createMaterial (db : DB) (inp : MaterialInput) : Except ApiError (DB × Material) :=
  let st := classify inp.condition
  if conditionValid inp.condition then
    let m : Material :=
      { id := db.nextId, name := inp.name, category := inp.category,
        entryDate := inp.entryDate, condition := inp.condition, state := st,
        shelf := inp.shelf, shelfId := inp.shelfId, position := inp.position,
        lastInspection := none }
    let db1 : DB := { db with materials := db.materials ++ [m], nextId := db.nextId + 1 }
    let db2 : DB :=
      match m.shelfId with
      | some sid => setOccupancy db1 sid m.position true (some m.id)
      | none => db1
    Except.ok (db2, m)
  else
    Except.error ApiError.ValidationError

/-- The request body of PUT /api/materials/:id: each field is `some` when
the update supplies it and `none` when it is absent. -/
structure MaterialUpdate : Type where
  name : Option String
  category : Option String
  entryDate : Option Int
  condition : Option Int
  shelf : Option String
  shelfId : Option Nat
  position : Option String
deriving DecidableEq, Repr

/-- An update touching no field. -/
def emptyUpdate : MaterialUpdate :=
  { name := none, category := none, entryDate := none, condition := none,
    shelf := none, shelfId := none, position := none }

/-- JavaScript truthiness of `updateData.condition` for a numeric body
(server.js line 274, `if (updateData.condition)`): an absent field and the
number 0 are falsy, every other number is truthy. -/
def condTruthy : Option Int → Bool
  | some c => c ≠ 0
  | none => false

/-- The merge `findByIdAndUpdate` performs: every field present in the
update overwrites the stored one, the rest keep their values; `newState` is
the re-classified state when the truthiness guard fired. -/
def applyUpdate (m : Material) (u : MaterialUpdate) (newState : Option MState) : Material :=
  { m with
    name := u.name.getD m.name
    category := u.category.getD m.category
    entryDate := u.entryDate.getD m.entryDate
    condition := u.condition.getD m.condition
    state := newState.getD m.state
    shelf := u.shelf.getD m.shelf
    shelfId := match u.shelfId with | some sid => some sid | none => m.shelfId
    position := u.position.getD m.position }

/-- PUT /api/materials/:id (server.js lines 265-295): when
`updateData.condition` is truthy, recompute `state` by the same thresholds;
then `findByIdAndUpdate` merges the supplied fields.  When no material has
that id the route does NOT 404: `findByIdAndUpdate` returns null and the
handler answers 200 with a null body, leaving the database unchanged.
Shelf occupancy is never touched here. -/
def updateMaterial (db : DB) (id : Nat) (u : MaterialUpdate) :
    Except ApiError (DB × Option Material) :=
  let newState : Option MState :=
    if condTruthy u.condition then some (classify (u.condition.getD 0)) else none
  match db.materials.find? (fun m => m.id = id) with
  | none => Except.ok (db, none)
  | some m =>
    let m' := applyUpdate m u newState
    Except.ok
      ({ db with materials := db.materials.map (fun x => if x.id = id then m' else x) },
       some m')

/-- Removal of the Material record itself:
`Material.findByIdAndDelete(id)` (server.js line 310). -/
def removeMaterialRecord (db : DB) (id : Nat) : DB :=
  { db with materials := db.materials.filter (fun x => ¬ x.id = id) }

/-- DELETE /api/materials/:id (server.js lines 297-315): look the material
up; on a missing id `material.shelfId` dereferences null and the caught
TypeError surfaces as a 400.  Otherwise, when the material has a `shelfId`,
first clear the matching position(s) on that shelf (occupied := false,
materialId := null), and only then delete the Material record. -/
def deleteMaterial (db : DB) (id : Nat) : Except ApiError DB :=
  match db.materials.find? (fun m => m.id = id) with
  | none => Except.error ApiError.TypeErrorNull
  | some m =>
    let db1 : DB :=
      match m.shelfId with
      | some sid => setOccupancy db sid m.position false none
      | none => db
    Except.ok (removeMaterialRecord db1 id)

/-- The request fields of POST /api/inspections the cascade reads. -/
structure InspectionInput : Type where
  date : Int
  materials : List Nat
  inspector : String
deriving DecidableEq, Repr

/-- POST /api/inspections (server.js lines 318-333): persist the inspection,
then `Material.updateMany({_id: {$in: inspection.materials}},
{lastInspection: inspection.date})` — every existing material whose id is
in the list gets the date, ids matching no material are silently skipped,
and the route always succeeds. -/
def recordInspection (db : DB) (inp : InspectionInput) :
    Except ApiError (DB × Inspection) :=
  let insp : Inspection :=
    { id := db.nextId, date := inp.date, materials := inp.materials,
      inspector := inp.inspector }
  let ms := db.materials.map (fun m =>
    if insp.materials.contains m.id then { m with lastInspection := some insp.date } else m)
  Except.ok
    ({ db with
        inspections := db.inspections ++ [insp]
        materials := ms
        nextId := db.nextId + 1 }, insp)

/-- The aggregate record GET /api/stats answers with (server.js lines
347-380).  `conditionAverage` models the `$avg` aggregation: over zero
materials the pipeline yields no group (the route returns an empty array,
i.e. an absent average), otherwise the arithmetic mean. -/
structure Stats : Type where
  totalMaterials : Nat
  goodMaterials : Nat
  warningMaterials : Nat
  badMaterials : Nat
  totalShelves : Nat
  occupiedPositions : Nat
  conditionAverage : Option ℚ
deriving DecidableEq, Repr

/-- GET /api/stats (server.js lines 347-380): the countDocuments calls per
state, the shelf count, the unwind-and-match count of occupied positions,
and the `$avg` of `condition`. -/
def getStats (db : DB) : Stats :=
  { totalMaterials := db.materials.length
    goodMaterials := (db.materials.filter (fun m => m.state = MState.good)).length
    warningMaterials := (db.materials.filter (fun m => m.state = MState.warning)).length
    badMaterials := (db.materials.filter (fun m => m.state = MState.bad)).length
    totalShelves := db.shelves.length
    occupiedPositions :=
      ((db.shelves.flatMap (fun s => s.positions)).filter (fun p => p.occupied)).length
    conditionAverage :=
      if db.materials.isEmpty then none
      else some (((db.materials.map (fun m => (m.condition : ℚ))).sum) / db.materials.length) }

/-! Concrete states, used to exercise the operations at specific inputs:
a shelf `E` at (A, 1), a material placed on its position A1-H1, and the
small databases the route functions produce from them. -/

/-- The shelf created by `createShelf emptyDB "E" "A" 1 "#fff"`. -/
def shelfW : Shelf :=
  { id := 0, name := "E", row := "A", number := 1, color := "#fff",
    positions := genPositions "A" 1 }

/-- The database holding just `shelfW`. -/
def dbW : DB := { shelves := [shelfW], materials := [], inspections := [], nextId := 1 }

/-- A creation request placing a drill on shelf 0 at position A1-H1. -/
def inpPlace : MaterialInput :=
  { name := "perceuse", category := "outillage", entryDate := 3, condition := 90,
    shelf := "E", shelfId := some 0, position := "A1-H1" }

/-- The material record `createMaterial dbW inpPlace` persists. -/
def matPlaced : Material :=
  { id := 1, name := "perceuse", category := "outillage", entryDate := 3, condition := 90,
    state := MState.good, shelf := "E", shelfId := some 0, position := "A1-H1",
    lastInspection := none }

/-- `shelfW` after position A1-H1 is flipped to occupied by material 1. -/
def shelfPlaced : Shelf :=
  { shelfW with positions := setPositions shelfW.positions "A1-H1" true (some 1) }

/-- The database `createMaterial dbW inpPlace` produces. -/
def dbPlaced : DB :=
  { shelves := [shelfPlaced], materials := [matPlaced], inspections := [], nextId := 2 }

/-- A creation request with condition 50 and no shelf reference. -/
def inp50 : MaterialInput :=
  { name := "casque", category := "securite", entryDate := 0, condition := 50,
    shelf := "E", shelfId := none, position := "A1-M1" }

/-- The material `createMaterial emptyDB inp50` persists. -/
def matOne : Material :=
  { id := 0, name := "casque", category := "securite", entryDate := 0, condition := 50,
    state := MState.warning, shelf := "E", shelfId := none, position := "A1-M1",
    lastInspection := none }

/-- The database holding just `matOne`. -/
def dbOne : DB := { shelves := [], materials := [matOne], inspections := [], nextId := 1 }

/-- A creation request whose condition 150 exceeds the schema's max of 100. -/
def inp150 : MaterialInput := { inp50 with condition := 150 }

/-- A creation request whose condition -5 is below the schema's min of 0. -/
def inpNeg : MaterialInput := { inp50 with condition := -5 }

/-- A creation request naming the existing shelf 0 but a position identifier
(`A1-Z9`) matching none of its nine positions. -/
def inpBadPos : MaterialInput := { inpPlace with position := "A1-Z9" }

/-- The material `createMaterial dbW inpBadPos` persists. -/
def matBadPos : Material := { matPlaced with position := "A1-Z9" }

/-- The database `createMaterial dbW inpBadPos` produces: the material is
saved but the shelf's position array is untouched. -/
def dbBadPos : DB :=
  { shelves := [shelfW], materials := [matBadPos], inspections := [], nextId := 2 }

/-- An update request supplying only `condition := 0`. -/
def updZero : MaterialUpdate := { emptyUpdate with condition := some 0 }

/-- An inspection request on 2 material ids of which only id 1 exists in
`dbPlaced`. -/
def inpInspect : InspectionInput := { date := 7, materials := [1, 99], inspector := "Marc" }

/-- The inspection record `recordInspection dbPlaced inpInspect` persists. -/
def inspRec : Inspection := { id := 2, date := 7, materials := [1, 99], inspector := "Marc" }

/-- The database `recordInspection dbPlaced inpInspect` produces. -/
def dbInspected : DB :=
  { shelves := [shelfPlaced],
    materials := [{ matPlaced with lastInspection := some 7 }],
    inspections := [inspRec], nextId := 3 }

/-- A material in good state with condition 90 and no shelf reference. -/
def matM : Material :=
  { id := 0, name := "echelle", category := "acces", entryDate := 0, condition := 90,
    state := MState.good, shelf := "E", shelfId := none, position := "A1-B1",
    lastInspection := none }

/-- The database holding just `matM`. -/
def dbM : DB := { shelves := [], materials := [matM], inspections := [], nextId := 1 }

/-- `matM` after the update `updZero`: condition 0, state still good. -/
def matMZero : Material := { matM with condition := 0 }

/-- The database `updateMaterial dbM 0 updZero` produces. -/
def dbMZero : DB := { shelves := [], materials := [matMZero], inspections := [], nextId := 1 }

end GestionMateriel

namespace GestionMateriel

/-- Every position of `setPositions ps posId occ mid` that carries the
targeted identifier carries the written occupancy and reference. -/
theorem setPositions_mem_matching {ps : List Position} {posId : String} {occ : Bool}
    {mid : Option Nat} {p : Position} (hp : p ∈ setPositions ps posId occ mid)
    (hmatch : p.positionId = posId) :
    p.occupied = occ ∧ p.materialId = mid := by
  unfold setPositions at hp
  obtain ⟨q, hq, hqp⟩ := List.mem_map.mp hp
  by_cases h : q.positionId = posId
  · rw [if_pos h] at hqp
    rw [← hqp]
    exact ⟨rfl, rfl⟩
  · rw [if_neg h] at hqp
    rw [← hqp] at hmatch
    exact absurd hmatch h

/-- `setPositions` keeps a position with the targeted identifier in the
array when one was there. -/
theorem setPositions_exists_matching {ps : List Position} {posId : String}
    (occ : Bool) (mid : Option Nat) (h : ∃ p ∈ ps, p.positionId = posId) :
    ∃ p ∈ setPositions ps posId occ mid, p.positionId = posId := by
  obtain ⟨p, hp, hpid⟩ := h
  refine ⟨if p.positionId = posId then { p with occupied := occ, materialId := mid } else p,
    List.mem_map_of_mem _ hp, ?_⟩
  rw [if_pos hpid]
  exact hpid

/-- `setPositions` with an identifier matching no position is the identity
on the array. -/
theorem setPositions_noMatch {ps : List Position} {posId : String} (occ : Bool)
    (mid : Option Nat) (h : ∀ p ∈ ps, p.positionId ≠ posId) :
    setPositions ps posId occ mid = ps := by
  unfold setPositions
  rw [List.map_congr_left (fun p hp => if_neg (h p hp)), List.map_id']

/-- C1.  The state derived from an integer condition value at material
creation and update is `good` exactly on `c ≥ 80`, `warning` exactly on
`40 ≤ c < 80` and `bad` exactly on `c < 40`: the three cases cover every
integer and exclude one another. -/
theorem classify_thresholds (c : Int) :
    (classify c = MState.good ↔ 80 ≤ c) ∧
    (classify c = MState.warning ↔ 40 ≤ c ∧ c < 80) ∧
    (classify c = MState.bad ↔ c < 40) := by
  unfold classify
  split_ifs with h1 h2 <;> refine ⟨?_, ?_, ?_⟩ <;> simp <;> omega

/-- C2.  A successful shelf creation persists a shelf holding exactly 9
positions — 3 carrying each of the three level labels — each unoccupied
with no material reference, a position number in 1..3, and the identifier
`{row}{number}-{levelCode}{index}` for a level code among H, M, B. -/
theorem createShelf_grid (db : DB) (name row : String) (number : Int) (color : String)
    (db' : DB) (sh : Shelf)
    (h : createShelf db name row number color = Except.ok (db', sh)) :
    sh.positions.length = 9 ∧
    (sh.positions.filter (fun p => p.level = "Haut")).length = 3 ∧
    (sh.positions.filter (fun p => p.level = "Milieu")).length = 3 ∧
    (sh.positions.filter (fun p => p.level = "Bas")).length = 3 ∧
    (∀ p ∈ sh.positions, p.occupied = false ∧ p.materialId = none ∧
      1 ≤ p.positionNumber ∧ p.positionNumber ≤ 3 ∧
      ∃ code, code ∈ levelCodes ∧
        p.positionId = row ++ toString number ++ "-" ++ code ++ toString p.positionNumber) ∧
    sh ∈ db'.shelves := by
  unfold createShelf at h
  split at h
  · exact absurd h (by simp)
  · simp only [Except.ok.injEq, Prod.mk.injEq] at h
    obtain ⟨hdb, hsh⟩ := h
    subst hdb
    subst hsh
    refine ⟨?_, ?_, ?_, ?_, ?_, ?_⟩
    · rfl
    · rfl
    · rfl
    · rfl
    · intro p hp
      simp only [genPositions, levelCodes, List.flatMap, List.range, List.map] at hp
      fin_cases hp <;>
        refine ⟨rfl, rfl, by simp, by simp, ?_⟩
      · exact ⟨"H", by simp [levelCodes], rfl⟩
      · exact ⟨"H", by simp [levelCodes], rfl⟩
      · exact ⟨"H", by simp [levelCodes], rfl⟩
      · exact ⟨"M", by simp [levelCodes], rfl⟩
      · exact ⟨"M", by simp [levelCodes], rfl⟩
      · exact ⟨"M", by simp [levelCodes], rfl⟩
      · exact ⟨"B", by simp [levelCodes], rfl⟩
      · exact ⟨"B", by simp [levelCodes], rfl⟩
      · exact ⟨"B", by simp [levelCodes], rfl⟩
    · simp

/-- C2, applied: the shelf `createShelf emptyDB "E" "A" 1 "#fff"` persists
has the 9-position grid. -/
theorem createShelf_grid_witness :
    shelfW.positions.length = 9 ∧ shelfW ∈ dbW.shelves :=
  ⟨(createShelf_grid emptyDB "E" "A" 1 "#fff" dbW shelfW rfl).1,
   (createShelf_grid emptyDB "E" "A" 1 "#fff" dbW shelfW rfl).2.2.2.2.2⟩

/-- C3 counterexample: updating a material id that exists nowhere — id 5 on
the empty database — does not fail with NotFound: the route succeeds,
answering a null material and leaving the database unchanged. -/
theorem updateMaterial_missing_not_notFound :
    updateMaterial emptyDB 5 emptyUpdate = Except.ok (emptyDB, none) ∧
    updateMaterial emptyDB 5 emptyUpdate ≠ Except.error ApiError.NotFound := by
  refine ⟨rfl, ?_⟩
  intro hc
  exact Except.noConfusion ((rfl : updateMaterial emptyDB 5 emptyUpdate =
    Except.ok (emptyDB, none)) ▸ hc)

/-- C3 (amended).  For every id that corresponds to no existing Material,
updateMaterial succeeds with a null material and an unchanged database:
`findByIdAndUpdate` returns null and the handler answers 200 rather than a
NotFound error. -/
theorem updateMaterial_missing_succeeds_null (db : DB) (id : Nat) (u : MaterialUpdate)
    (h : ∀ m ∈ db.materials, m.id ≠ id) :
    updateMaterial db id u = Except.ok (db, none) := by
  unfold updateMaterial
  have hfind : db.materials.find? (fun m => m.id = id) = none := by
    rw [List.find?_eq_none]
    intro m hm
    simpa using h m hm
  rw [hfind]

/-- C3 (amended), applied at id 5 on the empty database. -/
theorem updateMaterial_missing_succeeds_null_witness :
    updateMaterial emptyDB 5 emptyUpdate = Except.ok (emptyDB, none) :=
  updateMaterial_missing_succeeds_null emptyDB 5 emptyUpdate (by simp [emptyDB])

/-- C4.  When material creation carries a shelfId and a position identifier
matching a position of that shelf, the post-state shelf still has a
position with that identifier, and every position of it carrying that
identifier reports occupied with the new material's id — the hypotheses
place no constraint on the position's previous occupancy, so a previous
occupant is silently overwritten. -/
theorem createMaterial_occupies (db : DB) (inp : MaterialInput) (db' : DB) (m : Material)
    (sid : Nat)
    (hc : createMaterial db inp = Except.ok (db', m))
    (hsid : inp.shelfId = some sid)
    (hex : ∃ sh ∈ db.shelves, sh.id = sid ∧ ∃ p ∈ sh.positions, p.positionId = inp.position) :
    (∃ sh' ∈ db'.shelves, sh'.id = sid ∧ ∃ p ∈ sh'.positions, p.positionId = inp.position) ∧
    (∀ sh' ∈ db'.shelves, sh'.id = sid →
      ∀ p ∈ sh'.positions, p.positionId = inp.position →
        p.occupied = true ∧ p.materialId = some m.id) := by
  unfold createMaterial at hc
  dsimp only at hc
  rw [hsid] at hc
  split at hc
  · simp only [Except.ok.injEq, Prod.mk.injEq] at hc
    obtain ⟨hdb, hm⟩ := hc
    subst hdb
    subst hm
    constructor
    · obtain ⟨sh, hsh, hid, hpex⟩ := hex
      refine ⟨if sh.id = sid then
          { sh with positions := setPositions sh.positions inp.position true (some db.nextId) }
        else sh, List.mem_map_of_mem _ hsh, ?_, ?_⟩
      · rw [if_pos hid]
        exact hid
      · rw [if_pos hid]
        exact setPositions_exists_matching true (some db.nextId) hpex
    · intro sh' hmem hid' p hp hpid
      obtain ⟨s, hs, hfs⟩ := List.mem_map.mp hmem
      by_cases h2 : s.id = sid
      · rw [if_pos h2] at hfs
        rw [← hfs] at hp
        exact setPositions_mem_matching hp hpid
      · rw [if_neg h2] at hfs
        rw [← hfs] at hid'
        exact absurd hid' h2
  · exact absurd hc (by simp)

/-- C4, applied: placing the drill at A1-H1 of shelf 0 leaves that position
occupied with material 1's id. -/
theorem createMaterial_occupies_witness :
    (∃ sh' ∈ dbPlaced.shelves, sh'.id = 0 ∧
       ∃ p ∈ sh'.positions, p.positionId = inpPlace.position) ∧
    (∀ sh' ∈ dbPlaced.shelves, sh'.id = 0 →
      ∀ p ∈ sh'.positions, p.positionId = inpPlace.position →
        p.occupied = true ∧ p.materialId = some matPlaced.id) :=
  createMaterial_occupies dbW inpPlace dbPlaced matPlaced 0 rfl rfl
    ⟨shelfW, by decide, rfl, by decide⟩

/-- C5 counterexample: creating a material aimed at the existing shelf 0
but at the identifier A1-Z9, which matches none of its positions, raises
no PositionNotFound error — the call succeeds and the shelf's position
array is silently left unchanged. -/
theorem createMaterial_badPosition_silent :
    createMaterial dbW inpBadPos = Except.ok (dbBadPos, matBadPos) ∧
    dbBadPos.shelves = dbW.shelves := by
  exact ⟨rfl, rfl⟩

/-- C5 (amended).  Setting occupancy with a position identifier matching no
position of the addressed shelf is a silent no-op: no error of any kind is
raised and the database — the shelf included — is left exactly unchanged. -/
theorem setOccupancy_noMatch_noop (db : DB) (sid : Nat) (posId : String) (occ : Bool)
    (mid : Option Nat)
    (h : ∀ s ∈ db.shelves, s.id = sid → ∀ p ∈ s.positions, p.positionId ≠ posId) :
    setOccupancy db sid posId occ mid = db := by
  have hpt : ∀ s ∈ db.shelves,
      (if s.id = sid then { s with positions := setPositions s.positions posId occ mid }
       else s) = s := by
    intro s hs
    by_cases h2 : s.id = sid
    · rw [if_pos h2, setPositions_noMatch occ mid (h s hs h2)]
    · exact if_neg h2
  unfold setOccupancy
  rw [List.map_congr_left hpt, List.map_id']

/-- C5 (amended), applied: flipping A1-Z9 on shelf 0 leaves the database
unchanged. -/
theorem setOccupancy_noMatch_noop_witness :
    setOccupancy dbW 0 "A1-Z9" true (some 1) = dbW :=
  setOccupancy_noMatch_noop dbW 0 "A1-Z9" true (some 1) (by decide)

/-- C6.  Deleting an existing material that carries a shelfId first clears
the matching position(s) on that shelf — occupied false, null reference —
and removes the material record only from that cleared state: the final
database is exactly `removeMaterialRecord` applied after `setOccupancy`,
the material is still present in the intermediate cleared state, every
matching position of the final state is unoccupied, and no material with
the deleted id survives. -/
theorem deleteMaterial_clears_then_removes (db : DB) (id : Nat) (m : Material) (sid : Nat)
    (hfind : db.materials.find? (fun x => x.id = id) = some m)
    (hsid : m.shelfId = some sid) :
    deleteMaterial db id =
      Except.ok (removeMaterialRecord (setOccupancy db sid m.position false none) id) ∧
    m ∈ (setOccupancy db sid m.position false none).materials ∧
    (∀ sh ∈ (removeMaterialRecord (setOccupancy db sid m.position false none) id).shelves,
      sh.id = sid → ∀ p ∈ sh.positions, p.positionId = m.position →
        p.occupied = false ∧ p.materialId = none) ∧
    (∀ x ∈ (removeMaterialRecord (setOccupancy db sid m.position false none) id).materials,
      x.id ≠ id) := by
  refine ⟨?_, ?_, ?_, ?_⟩
  · unfold deleteMaterial
    rw [hfind]
    dsimp only
    rw [hsid]
  · exact List.mem_of_find?_eq_some hfind
  · intro sh hsh hid p hp hpid
    simp only [removeMaterialRecord, setOccupancy] at hsh
    obtain ⟨s, hs, hfs⟩ := List.mem_map.mp hsh
    by_cases h2 : s.id = sid
    · rw [if_pos h2] at hfs
      rw [← hfs] at hp
      exact setPositions_mem_matching hp hpid
    · rw [if_neg h2] at hfs
      rw [← hfs] at hid
      exact absurd hid h2
  · intro x hx
    simp only [removeMaterialRecord, setOccupancy] at hx
    have := List.of_mem_filter hx
    simpa using this

/-- C6, applied: deleting material 1 from `dbPlaced` frees A1-H1 of shelf 0
before removing the record. -/
theorem deleteMaterial_clears_then_removes_witness :
    deleteMaterial dbPlaced 1 =
      Except.ok (removeMaterialRecord (setOccupancy dbPlaced 0 matPlaced.position false none) 1) ∧
    matPlaced ∈ (setOccupancy dbPlaced 0 matPlaced.position false none).materials ∧
    (∀ sh ∈ (removeMaterialRecord (setOccupancy dbPlaced 0 matPlaced.position false none) 1).shelves,
      sh.id = 0 → ∀ p ∈ sh.positions, p.positionId = matPlaced.position →
        p.occupied = false ∧ p.materialId = none) ∧
    (∀ x ∈ (removeMaterialRecord (setOccupancy dbPlaced 0 matPlaced.position false none) 1).materials,
      x.id ≠ 1) :=
  deleteMaterial_clears_then_removes dbPlaced 1 matPlaced 0 rfl rfl

/-- C7.  Recording an inspection dated D over material ids M persists the
inspection and sets lastInspection := D on every existing material whose id
is in M — membership, not order, decides the update — while materials whose
id is not in M are kept untouched; ids in M matching no material are
skipped, and the operation never reports an error. -/
theorem recordInspection_cascade (db : DB) (inp : InspectionInput) (db' : DB)
    (insp : Inspection)
    (h : recordInspection db inp = Except.ok (db', insp)) :
    insp.date = inp.date ∧ insp.materials = inp.materials ∧ insp ∈ db'.inspections ∧
    (∀ m ∈ db.materials, m.id ∈ inp.materials →
      ∃ m' ∈ db'.materials, m'.id = m.id ∧ m'.lastInspection = some inp.date) ∧
    (∀ m ∈ db.materials, m.id ∉ inp.materials → m ∈ db'.materials) ∧
    (∀ e : ApiError, recordInspection db inp ≠ Except.error e) := by
  unfold recordInspection at h
  simp only [Except.ok.injEq, Prod.mk.injEq] at h
  obtain ⟨hdb, hinsp⟩ := h
  subst hdb
  subst hinsp
  refine ⟨rfl, rfl, by simp, ?_, ?_, ?_⟩
  · intro m hm hmem
    refine ⟨if inp.materials.contains m.id then { m with lastInspection := some inp.date }
      else m, List.mem_map_of_mem _ hm, ?_⟩
    rw [if_pos (by simpa using hmem)]
    exact ⟨rfl, rfl⟩
  · intro m hm hnmem
    have h2 := List.mem_map_of_mem
      (fun m => if inp.materials.contains m.id then { m with lastInspection := some inp.date }
        else m) hm
    dsimp only at h2
    rw [if_neg (by simpa using hnmem)] at h2
    exact h2
  · intro e hc
    unfold recordInspection at hc
    exact Except.noConfusion hc

/-- C7, applied: inspecting ids [1, 99] on `dbPlaced` (id 99 exists
nowhere) succeeds and stamps material 1 with date 7. -/
theorem recordInspection_cascade_witness :
    inspRec.date = inpInspect.date ∧ inspRec.materials = inpInspect.materials ∧
    inspRec ∈ dbInspected.inspections ∧
    (∀ m ∈ dbPlaced.materials, m.id ∈ inpInspect.materials →
      ∃ m' ∈ dbInspected.materials, m'.id = m.id ∧ m'.lastInspection = some inpInspect.date) ∧
    (∀ m ∈ dbPlaced.materials, m.id ∉ inpInspect.materials → m ∈ dbInspected.materials) ∧
    (∀ e : ApiError, recordInspection dbPlaced inpInspect ≠ Except.error e) :=
  recordInspection_cascade dbPlaced inpInspect dbInspected inspRec rfl

/-- C8.  The stats of the empty database report zero for every count and
an absent average condition; after creating one material of condition 50
they report one total material, one warning material and average 50. -/
theorem getStats_empty_and_one :
    getStats emptyDB =
      { totalMaterials := 0
        goodMaterials := 0
        warningMaterials := 0
        badMaterials := 0
        totalShelves := 0
        occupiedPositions := 0
        conditionAverage := none } ∧
    createMaterial emptyDB inp50 = Except.ok (dbOne, matOne) ∧
    getStats dbOne =
      { totalMaterials := 1
        goodMaterials := 0
        warningMaterials := 1
        badMaterials := 0
        totalShelves := 0
        occupiedPositions := 0
        conditionAverage := some 50 } := by
  refine ⟨by decide, rfl, ?_⟩
  simp only [getStats, dbOne, matOne]
  norm_num
  exact ⟨by decide, by decide⟩

/-- C9 counterexample: a creation request with condition 150 (above the
schema's max 100) and one with condition -5 (below its min 0) are both
rejected with a ValidationError — they do not succeed. -/
theorem createMaterial_out_of_range_rejected :
    createMaterial emptyDB inp150 = Except.error ApiError.ValidationError ∧
    createMaterial emptyDB inpNeg = Except.error ApiError.ValidationError :=
  ⟨rfl, rfl⟩

/-- C9 (amended).  createMaterial with a condition outside [0,100] fails
with a ValidationError (MaterialSchema enforces min 0, max 100 at save
time); every accepted creation has an in-range condition and a state
derived from it by the uniform thresholds, with no special-casing. -/
theorem createMaterial_condition_validation (db : DB) (inp : MaterialInput) :
    (¬ (0 ≤ inp.condition ∧ inp.condition ≤ 100) →
      createMaterial db inp = Except.error ApiError.ValidationError) ∧
    (∀ db' m, createMaterial db inp = Except.ok (db', m) →
      (0 ≤ inp.condition ∧ inp.condition ≤ 100) ∧ m.condition = inp.condition ∧
        m.state = classify inp.condition) := by
  have hbool : conditionValid inp.condition = true ↔
      (0 ≤ inp.condition ∧ inp.condition ≤ 100) := by
    simp [conditionValid]
  constructor
  · intro hout
    unfold createMaterial
    dsimp only
    rw [if_neg (fun hh => hout (hbool.mp hh))]
  · intro db' m hc
    unfold createMaterial at hc
    dsimp only at hc
    split at hc
    case isTrue hv =>
      simp only [Except.ok.injEq, Prod.mk.injEq] at hc
      obtain ⟨hdb, hm⟩ := hc
      subst hm
      exact ⟨hbool.mp hv, rfl, rfl⟩
    case isFalse hv => exact Except.noConfusion hc

/-- C9 (amended), applied at condition 150. -/
theorem createMaterial_condition_validation_witness :
    createMaterial emptyDB inp150 = Except.error ApiError.ValidationError :=
  (createMaterial_condition_validation emptyDB inp150).1 (by decide)

/-- If a list's `find?` for an id hits `m`, then after replacing every
element carrying that id by `m'` (with `m'.id = id`), `find?` hits `m'`. -/
theorem find?_map_update (l : List Material) (id : Nat) (m m' : Material)
    (hfind : l.find? (fun x => x.id = id) = some m) (hm' : m'.id = id) :
    (l.map (fun x => if x.id = id then m' else x)).find? (fun x => x.id = id) = some m' := by
  induction l with
  | nil => simp at hfind
  | cons a t ih =>
    by_cases h : a.id = id
    · rw [List.map_cons, if_pos h, List.find?_cons_of_pos _ (by simpa using hm')]
    · rw [List.find?_cons_of_neg _ (by simpa using h)] at hfind
      rw [List.map_cons, if_neg h, List.find?_cons_of_neg _ (by simpa using h)]
      exact ih hfind

/-- C10.  Updating an existing material with condition 0 skips the
re-classification branch (0 is falsy in `if (updateData.condition)`), so
the stored condition becomes 0 while the state keeps its prior value, even
though classifying 0 yields bad: the invariant state = classify(condition)
breaks through the public update interface whenever the prior state was
not bad. -/
theorem updateMaterial_zero_condition_keeps_state (db : DB) (id : Nat) (m m' : Material)
    (u : MaterialUpdate) (db' : DB)
    (hfind : db.materials.find? (fun x => x.id = id) = some m)
    (hcond : u.condition = some 0)
    (hrun : updateMaterial db id u = Except.ok (db', some m')) :
    m'.condition = 0 ∧ m'.state = m.state ∧ classify m'.condition = MState.bad ∧
    (m.state ≠ MState.bad → m'.state ≠ classify m'.condition) ∧
    db'.materials.find? (fun x => x.id = id) = some m' := by
  unfold updateMaterial at hrun
  rw [hfind] at hrun
  dsimp only at hrun
  rw [hcond] at hrun
  have hfalse : condTruthy (some 0) = false := rfl
  rw [hfalse] at hrun
  simp only [Bool.false_eq_true, if_false, Except.ok.injEq, Prod.mk.injEq,
    Option.some.injEq] at hrun
  obtain ⟨hdb, hm⟩ := hrun
  subst hdb
  subst hm
  have h1 : (applyUpdate m u none).condition = 0 := by
    simp [applyUpdate, hcond]
  have h2 : (applyUpdate m u none).state = m.state := rfl
  have hid : (applyUpdate m u none).id = id := by
    have := List.find?_some hfind
    simpa using this
  have h3 : classify (0 : Int) = MState.bad := by decide
  refine ⟨h1, h2, ?_, ?_, ?_⟩
  · rw [h1, h3]
  · intro hne
    rw [h1, h2, h3]
    exact hne
  · exact find?_map_update db.materials id m (applyUpdate m u none) hfind hid

/-- C10, applied: updating the good-state material 0 (condition 90) with
condition 0 stores condition 0 but keeps state good, though classify 0 is
bad. -/
theorem updateMaterial_zero_condition_keeps_state_witness :
    matMZero.condition = 0 ∧ matMZero.state = matM.state ∧
    classify matMZero.condition = MState.bad ∧
    (matM.state ≠ MState.bad → matMZero.state ≠ classify matMZero.condition) ∧
    dbMZero.materials.find? (fun x => x.id = 0) = some matMZero :=
  updateMaterial_zero_condition_keeps_state dbM 0 matM matMZero updZero dbMZero rfl rfl rfl

end GestionMateriel
